import Mathlib

/-!
Shallow embedding of `mozilla_django_oidc/middleware.py`: the
`SessionRefresh` middleware (eligibility filter, freshness evaluator,
silent re-authentication initiator) and the `RefreshOIDCToken` middleware
(refresh-token exchanger), together with theorems settling the spec's
claims about them.

Collaborators that live outside the middleware module
(`store_tokens`, `store_expiration_times`, `add_state_and_nonce_to_session`,
Django's `logout`, `reverse`, `import_string`, the HTTP client) are modelled
at their interface boundary; each such definition's doc comment says so.
-/

namespace OIDC

/-- Session object (framework-owned mapping); only the keys this middleware
reads or writes are modelled. `backend_session` is the value stored under
Django's `BACKEND_SESSION_KEY` (the dotted path of the authentication
backend); `none` models an absent key and `some ""` a falsy recorded value. -/
structure Session where
  oidc_id_token_expiration : Option Int
  oidc_refresh_token : Option String
  oidc_access_token : Option String
  oidc_id_token : Option String
  oidc_login_next : Option String
  oidc_states : List (String × Option String)
  backend_session : Option String
  deriving DecidableEq

/-- Incoming HTTP request together with its session. `is_ajax` is the
request's background/XHR flag (`request.is_ajax()`); `full_path` is
`request.get_full_path()`. -/
structure Request where
  method : String
  path : String
  full_path : String
  is_authenticated : Bool
  is_ajax : Bool
  session : Session
  deriving DecidableEq

/-- Configuration values read through `import_from_settings`, with the
defaults the source passes at each call site. `OIDC_RENEW_ID_TOKEN_EXPIRY_SECONDS`
has no default in the source (it is required once the refresh-token expiry
window is enabled), so it has no default here either. -/
structure Config where
  OIDC_EXEMPT_URLS : List String := []
  OIDC_OP_AUTHORIZATION_ENDPOINT : String
  OIDC_OP_TOKEN_ENDPOINT : String
  OIDC_RP_CLIENT_ID : String
  OIDC_RP_CLIENT_SECRET : String
  OIDC_RP_SCOPES : String := "openid email"
  OIDC_USE_NONCE : Bool := true
  OIDC_AUTHENTICATION_CALLBACK_URL : String := "oidc_authentication_callback"
  OIDC_RENEW_REFRESH_TOKEN : Bool := false
  OIDC_RENEW_REFRESH_TOKEN_EXPIRY_SECONDS : Int := 0
  OIDC_RENEW_ID_TOKEN_EXPIRY_SECONDS : Int

/-- Parsed body of the token endpoint's response: `status_code` plus the
result of `token_info.get` for each of the three token keys (`none` when
the JSON body omits the key). -/
structure HttpResponse where
  status_code : Nat
  id_token : Option String
  access_token : Option String
  refresh_token : Option String
  deriving DecidableEq

/-- Outcome of one `requests.post` call: either a response object, or a
transport-level exception (connection error / timeout) raised by the HTTP
client before any response exists. -/
inductive TransportResult where
  | ok (resp : HttpResponse)
  | exn
  deriving DecidableEq

/-- Per-request environment of collaborators: Django's `reverse` (view name
to absolute path), the backend-class inspection
`issubclass(import_string s, OIDCAuthenticationBackend)`, the wall clock
sample, the secure random strings drawn for state and nonce, `absolutify`
(path to fully-qualified URL for this request), and the outbound HTTP
client. -/
structure Env where
  reverse : String → String
  isOIDCBackend : String → Bool
  now : Int
  randomState : String
  randomNonce : String
  absolutify : String → String
  httpPost : String → List (String × String) → TransportResult

/-- Result of one middleware `process_request` call as seen by the host
framework: pass-through (Python `None`), an HTTP redirect, the structured
403 signal (body field and response header both named `refresh_url`), or a
raised exception. `transportExn` is an HTTP-client exception escaping the
middleware uncaught. -/
inductive Outcome where
  | passthrough
  | redirect (status : Nat) (url : String)
  | ajaxForbidden (status : Nat) (body_refresh_url : String) (header_refresh_url : String)
  | improperlyConfigured (msg : String)
  | permissionDenied (msg : String)
  | transportExn
  deriving DecidableEq

/-- Full effect of one `process_request` call: its outcome, the session it
leaves behind, whether `django_logout` ran, and whether the token endpoint
was contacted. -/
structure StepResult where
  outcome : Outcome
  session : Session
  loggedOut : Bool
  contactedTokenEndpoint : Bool
  deriving DecidableEq

/-- Python `str.startswith("/")`: whether the first character of the string
is a slash (defined over the character list so that it evaluates by kernel
reduction). -/
def startsWithSlash (s : String) : Bool :=
  match s.data with
  | [] => false
  | c :: _ => c == '/'

/-- ASCII upper-casing of one character, as Python `str.upper` does on the
ASCII method names it is applied to here. -/
def upperAsciiChar (c : Char) : Char :=
  if 97 ≤ c.toNat ∧ c.toNat ≤ 122 then Char.ofNat (c.toNat - 32) else c

/-- Python `str.upper` for HTTP method names (ASCII), defined over the
character list so that it evaluates by kernel reduction. -/
def pyUpper (s : String) : String :=
  String.mk (s.data.map upperAsciiChar)

/-- `SessionRefresh.exempt_urls`: the configured `OIDC_EXEMPT_URLS` plus the
three fixed view names; an entry starting with "/" is kept verbatim, any
other entry is resolved through `reverse`. The source builds a set; here
membership in the list is what matters. -/
def exempt_urls (cfg : Config) (env : Env) : List String :=
  (cfg.OIDC_EXEMPT_URLS ++
      ["oidc_authentication_init", "oidc_authentication_callback", "oidc_logout"]).map
    (fun url => if startsWithSlash url then url else env.reverse url)

/-- `SessionRefresh.is_refreshable_url`. An absent backend key (and a falsy
recorded value, as Python truthiness has it) leaves `is_oidc_enabled` at its
initial `true`. -/
def is_refreshable_url (cfg : Config) (env : Env) (req : Request) (get_only : Bool) : Bool :=
  let is_oidc_enabled :=
    match req.session.backend_session with
    | none => true
    | some s => if s.isEmpty then true else env.isOIDCBackend s
  (!get_only || req.method == "GET") &&
    req.is_authenticated &&
    is_oidc_enabled &&
    !((exempt_urls cfg env).contains req.path)

/-- `SessionRefresh.is_expired`: reads `oidc_id_token_expiration` with
default 0 and compares it against the single wall-clock sample `now`. -/
def is_expired (session : Session) (now : Int) : Bool :=
  let expiration := session.oidc_id_token_expiration.getD 0
  if expiration > now then false else true

/-- Modelled from the spec: `add_state_and_nonce_to_session` of
`mozilla_django_oidc.utils` is not under src/; per the spec's data model it
records the fresh `state` (and the `nonce` when present) in the session,
keyed by `state`, for later single-use validation by the callback. -/
def add_state_and_nonce_to_session (session : Session) (state : String)
    (nonce : Option String) : Session :=
  { session with oidc_states := (state, nonce) :: session.oidc_states }

/-- Modelled from the spec: `store_tokens` of `mozilla_django_oidc.auth` is
not under src/; per the spec's interface list it updates the session's token
fields with the given access, id and refresh tokens. -/
def store_tokens (session : Session)
    (access_token id_token refresh_token : Option String) : Session :=
  { session with
      oidc_access_token := access_token
      oidc_id_token := id_token
      oidc_refresh_token := refresh_token }

/-- Modelled from the spec: `store_expiration_times` of
`mozilla_django_oidc.auth` is not under src/; per the spec's invariant it
refreshes `oidc_id_token_expiration` to cover the newly trusted token set
(the current time plus the configured ID-token expiry window). -/
def store_expiration_times (session : Session) (cfg : Config) (now : Int) : Session :=
  { session with
      oidc_id_token_expiration :=
        some (now + cfg.OIDC_RENEW_ID_TOKEN_EXPIRY_SECONDS) }

/-- Modelled from the spec: `django.contrib.auth.logout` is a framework
collaborator; per the spec it invalidates the current session and clears
authentication, leaving an empty session. -/
def django_logout (_session : Session) : Session :=
  { oidc_id_token_expiration := none
    oidc_refresh_token := none
    oidc_access_token := none
    oidc_id_token := none
    oidc_login_next := none
    oidc_states := []
    backend_session := none }

/-- urlencode over the parameter association list (a Python dict preserves
insertion order); percent-escaping of values is not modelled, as no claim
depends on it. -/
def urlencode (params : List (String × String)) : String :=
  String.intercalate "&" (params.map (fun p => p.1 ++ "=" ++ p.2))

/-- authorization request parameters built by `SessionRefresh.process_request`,
in insertion order, with `nonce` appended last when `OIDC_USE_NONCE` is on. -/
def auth_params (cfg : Config) (env : Env) : List (String × String) :=
  [("response_type", "code"),
   ("client_id", cfg.OIDC_RP_CLIENT_ID),
   ("redirect_uri", env.absolutify (env.reverse cfg.OIDC_AUTHENTICATION_CALLBACK_URL)),
   ("state", env.randomState),
   ("scope", cfg.OIDC_RP_SCOPES),
   ("prompt", "none")] ++
  (if cfg.OIDC_USE_NONCE then [("nonce", env.randomNonce)] else [])

/-- final authorization URL: the authorization endpoint with the encoded
parameter set as query string. -/
def redirect_url (cfg : Config) (env : Env) : String :=
  cfg.OIDC_OP_AUTHORIZATION_ENDPOINT ++ "?" ++ urlencode (auth_params cfg env)

/-- `SessionRefresh.process_request`: gate on `is_refreshable_url` with
`get_only=True` and on `is_expired`; when both pass, run the silent
re-authentication initiator: bind state/nonce into the session, stash
`oidc_login_next`, and answer with the 403 JSON signal for an XHR request or
a 302 redirect otherwise. -/
def SessionRefresh.process_request (cfg : Config) (env : Env) (req : Request) : StepResult :=
  if !is_refreshable_url cfg env req true then
    ⟨.passthrough, req.session, false, false⟩
  else if !is_expired req.session env.now then
    ⟨.passthrough, req.session, false, false⟩
  else
    let state := env.randomState
    let nonce : Option String :=
      if cfg.OIDC_USE_NONCE then some env.randomNonce else none
    let session1 := add_state_and_nonce_to_session req.session state nonce
    let session2 := { session1 with oidc_login_next := some req.full_path }
    let url := redirect_url cfg env
    if req.is_ajax then
      ⟨.ajaxForbidden 403 url url, session2, false, false⟩
    else
      ⟨.redirect 302 url, session2, false, false⟩

/-- `RefreshOIDCToken._is_refresh_token_expired`: a falsy (zero) configured
expiry-seconds value means the refresh token never independently expires;
otherwise the deadline is `oidc_id_token_expiration` (default 0) minus
`OIDC_RENEW_ID_TOKEN_EXPIRY_SECONDS` plus the expiry-seconds value, and the
token is expired once that deadline is not strictly in the future. -/
def RefreshOIDCToken.is_refresh_token_expired (cfg : Config) (session : Session)
    (now : Int) : Bool :=
  let refresh_toke_expire_time := cfg.OIDC_RENEW_REFRESH_TOKEN_EXPIRY_SECONDS
  if refresh_toke_expire_time == 0 then false
  else
    let refresh_token_expire :=
      session.oidc_id_token_expiration.getD 0
        - cfg.OIDC_RENEW_ID_TOKEN_EXPIRY_SECONDS
        + refresh_toke_expire_time
    if refresh_token_expire > now then false else true

/-- `RefreshOIDCToken._handle_refresh_token_expire`: with
`OIDC_RENEW_REFRESH_TOKEN` on and an (upper-cased) GET method, delegate to
`SessionRefresh.process_request`; otherwise log the user out and raise
`PermissionDenied`. -/
def RefreshOIDCToken.handle_refresh_token_expire (cfg : Config) (env : Env)
    (req : Request) : StepResult :=
  if cfg.OIDC_RENEW_REFRESH_TOKEN && pyUpper req.method == "GET" then
    SessionRefresh.process_request cfg env req
  else
    ⟨.permissionDenied "Refresh token expired on POST.",
     django_logout req.session, true, false⟩

/-- form payload of the refresh-token grant sent to the token endpoint. -/
def token_payload (cfg : Config) (refresh_token : String) : List (String × String) :=
  [("grant_type", "refresh_token"),
   ("client_id", cfg.OIDC_RP_CLIENT_ID),
   ("client_secret", cfg.OIDC_RP_CLIENT_SECRET),
   ("refresh_token", refresh_token)]

/-- `RefreshOIDCToken.process_request`: gate on `is_refreshable_url` with
`get_only=False` and on `is_expired`; then check refresh-token expiry, then
presence of a refresh token (Python falsiness: absent or empty), then POST
the refresh-token grant. A non-200 status goes to the expiry handler; a
transport exception escapes uncaught; on 200 the expiration times and the
three (possibly absent) tokens from the body are stored into the session. -/
def RefreshOIDCToken.process_request (cfg : Config) (env : Env) (req : Request) : StepResult :=
  if !is_refreshable_url cfg env req false then
    ⟨.passthrough, req.session, false, false⟩
  else if !is_expired req.session env.now then
    ⟨.passthrough, req.session, false, false⟩
  else
    let refresh_token := req.session.oidc_refresh_token
    if RefreshOIDCToken.is_refresh_token_expired cfg req.session env.now then
      RefreshOIDCToken.handle_refresh_token_expire cfg env req
    else if refresh_token.getD "" == "" then
      ⟨.improperlyConfigured "Refresh token missing.", req.session, false, false⟩
    else
      match env.httpPost cfg.OIDC_OP_TOKEN_ENDPOINT
          (token_payload cfg (refresh_token.getD "")) with
      | .exn => ⟨.transportExn, req.session, false, true⟩
      | .ok response =>
        if response.status_code != 200 then
          let r := RefreshOIDCToken.handle_refresh_token_expire cfg env req
          { r with contactedTokenEndpoint := true }
        else
          let s1 := store_expiration_times req.session cfg env.now
          let s2 := store_tokens s1 response.access_token response.id_token
            response.refresh_token
          ⟨.passthrough, s2, false, true⟩

/-! Concrete fixtures used by witnesses and counterexamples. -/

/-- sample environment; the HTTP client always answers with the given
transport result. -/
def sampleEnv (post : TransportResult) : Env :=
  { reverse := fun name => "/" ++ name ++ "/"
    isOIDCBackend := fun _ => true
    now := 1000
    randomState := "st123"
    randomNonce := "nc456"
    absolutify := fun p => "http://testserver" ++ p
    httpPost := fun _ _ => post }

/-- sample configuration with the refresh-token expiry window disabled. -/
def sampleCfg : Config :=
  { OIDC_OP_AUTHORIZATION_ENDPOINT := "https://op.example.com/auth"
    OIDC_OP_TOKEN_ENDPOINT := "https://op.example.com/token"
    OIDC_RP_CLIENT_ID := "client-id"
    OIDC_RP_CLIENT_SECRET := "client-secret"
    OIDC_RENEW_ID_TOKEN_EXPIRY_SECONDS := 60 }

/-- sample session: ID token expired relative to `sampleEnv`'s clock, a
refresh token stored, no recorded backend. -/
def sampleSession : Session :=
  { oidc_id_token_expiration := some 10
    oidc_refresh_token := some "rt-1"
    oidc_access_token := none
    oidc_id_token := none
    oidc_login_next := none
    oidc_states := []
    backend_session := none }

/-- sample request to a non-exempt path carrying the given method, XHR flag
and session. -/
def sampleReq (method : String) (ajax : Bool) (s : Session) : Request :=
  { method := method
    path := "/dashboard"
    full_path := "/dashboard?page=1"
    is_authenticated := true
    is_ajax := ajax
    session := s }

/-- C1: the freshness evaluator reads `oidc_id_token_expiration` with
default 0 when absent and, against the single wall-clock sample `now`,
returns valid (false) iff the expiration is strictly greater than `now`;
for a wall-clock sample (0 ≤ now), an absent, zero, or past expiration
always yields expired (true). -/
theorem C1_is_expired_spec (s : Session) (now : Int) :
    (is_expired s now = false ↔ s.oidc_id_token_expiration.getD 0 > now) ∧
    (0 ≤ now →
      (s.oidc_id_token_expiration = none ∨
        s.oidc_id_token_expiration = some 0 ∨
        s.oidc_id_token_expiration.getD 0 ≤ now) →
      is_expired s now = true) := by
  refine ⟨?_, ?_⟩
  · dsimp only [is_expired]
    split <;> simp_all
  · intro hnow hcase
    dsimp only [is_expired]
    split
    · rcases hcase with h | h | h <;> simp_all <;> omega
    · rfl

/-- witness for C1 at a concrete session and clock. -/
theorem C1_is_expired_spec_witness :
    (is_expired sampleSession 1000 = false ↔
      sampleSession.oidc_id_token_expiration.getD 0 > 1000) ∧
    ((0 : Int) ≤ 1000 →
      (sampleSession.oidc_id_token_expiration = none ∨
        sampleSession.oidc_id_token_expiration = some 0 ∨
        sampleSession.oidc_id_token_expiration.getD 0 ≤ 1000) →
      is_expired sampleSession 1000 = true) :=
  C1_is_expired_spec sampleSession 1000

/-- C2: the refresh token is considered expired iff the configured
refresh-token expiry-seconds value is non-zero and the deadline
`oidc_id_token_expiration − OIDC_RENEW_ID_TOKEN_EXPIRY_SECONDS +
OIDC_RENEW_REFRESH_TOKEN_EXPIRY_SECONDS` is at most `now`; with the value
zero (its default when unset) the refresh token is never considered
expired. -/
theorem C2_refresh_token_expiry_spec (cfg : Config) (s : Session) (now : Int) :
    RefreshOIDCToken.is_refresh_token_expired cfg s now = true ↔
      (cfg.OIDC_RENEW_REFRESH_TOKEN_EXPIRY_SECONDS ≠ 0 ∧
        s.oidc_id_token_expiration.getD 0
            - cfg.OIDC_RENEW_ID_TOKEN_EXPIRY_SECONDS
            + cfg.OIDC_RENEW_REFRESH_TOKEN_EXPIRY_SECONDS ≤ now) := by
  dsimp only [RefreshOIDCToken.is_refresh_token_expired]
  split
  · simp_all
  · split
    · simp_all
    · simp_all

/-- sample configuration with a five-minute refresh-token expiry window. -/
def windowCfg : Config :=
  { sampleCfg with OIDC_RENEW_REFRESH_TOKEN_EXPIRY_SECONDS := 300 }

/-- witness for C2 at a concrete configuration with a non-zero window. -/
theorem C2_refresh_token_expiry_spec_witness :
    RefreshOIDCToken.is_refresh_token_expired windowCfg sampleSession 1000 = true ↔
      (windowCfg.OIDC_RENEW_REFRESH_TOKEN_EXPIRY_SECONDS ≠ 0 ∧
        sampleSession.oidc_id_token_expiration.getD 0
            - windowCfg.OIDC_RENEW_ID_TOKEN_EXPIRY_SECONDS
            + windowCfg.OIDC_RENEW_REFRESH_TOKEN_EXPIRY_SECONDS ≤ 1000) :=
  C2_refresh_token_expiry_spec windowCfg sampleSession 1000

/-- sample configuration with silent renewal of the refresh token enabled. -/
def renewCfg : Config :=
  { sampleCfg with OIDC_RENEW_REFRESH_TOKEN := true }

/-- C3: the expiry/rejection handler delegates to the silent
re-authentication initiator exactly when `OIDC_RENEW_REFRESH_TOKEN` is
enabled and the method is GET — and then, under the initiator's own gates,
produces its redirect or 403 signal; in every other case it logs the user
out (clearing the session) and raises PermissionDenied. -/
theorem C3_handle_refresh_token_expire_spec (cfg : Config) (env : Env) (req : Request) :
    (cfg.OIDC_RENEW_REFRESH_TOKEN = true ∧ pyUpper req.method = "GET" →
      RefreshOIDCToken.handle_refresh_token_expire cfg env req =
        SessionRefresh.process_request cfg env req ∧
      (is_refreshable_url cfg env req true = true →
        is_expired req.session env.now = true →
        ((RefreshOIDCToken.handle_refresh_token_expire cfg env req).outcome =
            .ajaxForbidden 403 (redirect_url cfg env) (redirect_url cfg env) ∨
          (RefreshOIDCToken.handle_refresh_token_expire cfg env req).outcome =
            .redirect 302 (redirect_url cfg env)))) ∧
    (¬(cfg.OIDC_RENEW_REFRESH_TOKEN = true ∧ pyUpper req.method = "GET") →
      RefreshOIDCToken.handle_refresh_token_expire cfg env req =
        ⟨.permissionDenied "Refresh token expired on POST.",
          django_logout req.session, true, false⟩) := by
  constructor
  · rintro ⟨hr, hm⟩
    have hif : (cfg.OIDC_RENEW_REFRESH_TOKEN && (pyUpper req.method == "GET")) = true := by
      simp [hr, hm]
    constructor
    · simp [RefreshOIDCToken.handle_refresh_token_expire, hif]
    · intro h1 h2
      simp only [RefreshOIDCToken.handle_refresh_token_expire, hif, if_true]
      simp only [SessionRefresh.process_request, h1, h2, Bool.not_true,
        Bool.false_eq_true, if_false]
      cases hajax : req.is_ajax
      · right; simp [hajax]
      · left; simp [hajax]
  · intro hcond
    have hif : (cfg.OIDC_RENEW_REFRESH_TOKEN && (pyUpper req.method == "GET")) = false := by
      rcases not_and_or.mp hcond with h | h
      · simp [Bool.not_eq_true] at h
        simp [h]
      · simp [h]
    simp [RefreshOIDCToken.handle_refresh_token_expire, hif]

/-- witness for C3 at a concrete GET request with renewal enabled, and the
resulting delegation producing the 302 redirect. -/
theorem C3_handle_refresh_token_expire_spec_witness :
    RefreshOIDCToken.handle_refresh_token_expire renewCfg (sampleEnv .exn)
        (sampleReq "GET" false sampleSession) =
      SessionRefresh.process_request renewCfg (sampleEnv .exn)
        (sampleReq "GET" false sampleSession) ∧
    ((RefreshOIDCToken.handle_refresh_token_expire renewCfg (sampleEnv .exn)
        (sampleReq "GET" false sampleSession)).outcome =
      .ajaxForbidden 403 (redirect_url renewCfg (sampleEnv .exn))
        (redirect_url renewCfg (sampleEnv .exn)) ∨
     (RefreshOIDCToken.handle_refresh_token_expire renewCfg (sampleEnv .exn)
        (sampleReq "GET" false sampleSession)).outcome =
      .redirect 302 (redirect_url renewCfg (sampleEnv .exn))) := by
  have h := (C3_handle_refresh_token_expire_spec renewCfg (sampleEnv .exn)
    (sampleReq "GET" false sampleSession)).1 ⟨rfl, by decide⟩
  exact ⟨h.1, h.2 (by decide) (by decide)⟩

/-- C7: the eligibility filter passes iff the method restriction holds, the
user is authenticated, any recorded non-empty backend is (a subclass of) the
OIDC backend — eligibility defaulting to true when no backend is recorded —
and the path avoids the exempt set; and the exempt set is exactly the
configured `OIDC_EXEMPT_URLS` plus the three fixed view names, entries
starting with "/" taken verbatim and the rest resolved through `reverse`. -/
theorem C7_is_refreshable_url_spec (cfg : Config) (env : Env) (req : Request)
    (get_only : Bool) :
    (is_refreshable_url cfg env req get_only = true ↔
      ((get_only = false ∨ req.method = "GET") ∧
        req.is_authenticated = true ∧
        (∀ s, req.session.backend_session = some s → s ≠ "" →
          env.isOIDCBackend s = true) ∧
        req.path ∉ exempt_urls cfg env)) ∧
    (∀ p, p ∈ exempt_urls cfg env ↔
      ∃ u, u ∈ cfg.OIDC_EXEMPT_URLS ++
          ["oidc_authentication_init", "oidc_authentication_callback",
            "oidc_logout"] ∧
        p = if startsWithSlash u then u else env.reverse u) := by
  constructor
  · cases hb : req.session.backend_session with
    | none =>
      simp [is_refreshable_url, hb, List.elem_iff]
      tauto
    | some s =>
      by_cases hs : s = ""
      · subst hs
        simp [is_refreshable_url, hb, List.elem_iff]
        tauto
      · simp [is_refreshable_url, hb, hs, String.isEmpty_iff, List.elem_iff]
        tauto
  · intro p
    simp only [exempt_urls, List.mem_map]
    constructor
    · rintro ⟨u, hu, rfl⟩
      exact ⟨u, hu, rfl⟩
    · rintro ⟨u, hu, rfl⟩
      exact ⟨u, hu, rfl⟩

/-- witness for C7 at a concrete request, environment and configuration. -/
theorem C7_is_refreshable_url_spec_witness :
    (is_refreshable_url sampleCfg (sampleEnv .exn)
          (sampleReq "GET" false sampleSession) true = true ↔
        ((true = false ∨ (sampleReq "GET" false sampleSession).method = "GET") ∧
          (sampleReq "GET" false sampleSession).is_authenticated = true ∧
          (∀ s, (sampleReq "GET" false sampleSession).session.backend_session
                = some s → s ≠ "" →
            (sampleEnv .exn).isOIDCBackend s = true) ∧
          (sampleReq "GET" false sampleSession).path ∉
            exempt_urls sampleCfg (sampleEnv .exn))) ∧
    (∀ p, p ∈ exempt_urls sampleCfg (sampleEnv .exn) ↔
      ∃ u, u ∈ sampleCfg.OIDC_EXEMPT_URLS ++
          ["oidc_authentication_init", "oidc_authentication_callback",
            "oidc_logout"] ∧
        p = if startsWithSlash u then u else (sampleEnv .exn).reverse u) :=
  C7_is_refreshable_url_spec sampleCfg (sampleEnv .exn)
    (sampleReq "GET" false sampleSession) true

/-- C8: once the silent re-authentication initiator fires (both gates
passed), the result is determined by the XHR flag alone: an XHR request gets
the 403 signal with the computed authorization URL in the `refresh_url` body
field and in the `refresh_url` response header, a navigational request gets
a 302 redirect to the same URL; in both cases the session gains the
state/nonce binding and `oidc_login_next`. -/
theorem C8_initiator_response_shape (cfg : Config) (env : Env) (req : Request)
    (h1 : is_refreshable_url cfg env req true = true)
    (h2 : is_expired req.session env.now = true) :
    SessionRefresh.process_request cfg env req =
      ⟨(if req.is_ajax then
          .ajaxForbidden 403 (redirect_url cfg env) (redirect_url cfg env)
        else
          .redirect 302 (redirect_url cfg env)),
       { add_state_and_nonce_to_session req.session env.randomState
            (if cfg.OIDC_USE_NONCE then some env.randomNonce else none) with
          oidc_login_next := some req.full_path },
       false, false⟩ := by
  simp only [SessionRefresh.process_request, h1, h2, Bool.not_true,
    Bool.false_eq_true, if_false]
  cases hajax : req.is_ajax <;> simp [hajax]

/-- witness for C8 at a concrete XHR request with an expired session. -/
theorem C8_initiator_response_shape_witness :
    SessionRefresh.process_request sampleCfg (sampleEnv .exn)
        (sampleReq "GET" true sampleSession) =
      ⟨(if (sampleReq "GET" true sampleSession).is_ajax then
          .ajaxForbidden 403 (redirect_url sampleCfg (sampleEnv .exn))
            (redirect_url sampleCfg (sampleEnv .exn))
        else
          .redirect 302 (redirect_url sampleCfg (sampleEnv .exn))),
       { add_state_and_nonce_to_session
            (sampleReq "GET" true sampleSession).session
            (sampleEnv .exn).randomState
            (if sampleCfg.OIDC_USE_NONCE then
              some (sampleEnv .exn).randomNonce
            else none) with
          oidc_login_next := some (sampleReq "GET" true sampleSession).full_path },
       false, false⟩ :=
  C8_initiator_response_shape sampleCfg (sampleEnv .exn)
    (sampleReq "GET" true sampleSession) (by decide) (by decide)

/-- C10: when the eligibility filter (with each entry point's own method
restriction) fails or the ID token is still valid, both
`SessionRefresh.process_request` and `RefreshOIDCToken.process_request`
return pass-through, leave the session exactly as it was, log nobody out,
and never contact the token endpoint. -/
theorem C10_passthrough_frame (cfg : Config) (env : Env) (req : Request) :
    ((is_refreshable_url cfg env req true = false ∨
        is_expired req.session env.now = false) →
      SessionRefresh.process_request cfg env req =
        ⟨.passthrough, req.session, false, false⟩) ∧
    ((is_refreshable_url cfg env req false = false ∨
        is_expired req.session env.now = false) →
      RefreshOIDCToken.process_request cfg env req =
        ⟨.passthrough, req.session, false, false⟩) := by
  constructor
  · rintro (h | h)
    · simp [SessionRefresh.process_request, h]
    · cases hr : is_refreshable_url cfg env req true <;>
        simp [SessionRefresh.process_request, h, hr]
  · rintro (h | h)
    · simp [RefreshOIDCToken.process_request, h]
    · cases hr : is_refreshable_url cfg env req false <;>
        simp [RefreshOIDCToken.process_request, h, hr]

/-- still-valid sample session: expiration strictly beyond `sampleEnv`'s
clock. -/
def freshSession : Session :=
  { sampleSession with oidc_id_token_expiration := some 5000 }

/-- witness for C10 at a concrete still-valid session. -/
theorem C10_passthrough_frame_witness :
    SessionRefresh.process_request sampleCfg (sampleEnv .exn)
        (sampleReq "GET" false freshSession) =
      ⟨.passthrough, (sampleReq "GET" false freshSession).session,
        false, false⟩ ∧
    RefreshOIDCToken.process_request sampleCfg (sampleEnv .exn)
        (sampleReq "POST" false freshSession) =
      ⟨.passthrough, (sampleReq "POST" false freshSession).session,
        false, false⟩ :=
  ⟨(C10_passthrough_frame sampleCfg (sampleEnv .exn)
      (sampleReq "GET" false freshSession)).1 (Or.inr (by decide)),
   (C10_passthrough_frame sampleCfg (sampleEnv .exn)
      (sampleReq "POST" false freshSession)).2 (Or.inr (by decide))⟩

/-- C5: when the exchange is reached (gates passed, refresh token neither
considered expired nor missing) and the token endpoint answers 200, the
exchanger stores the new expiration times and then the three tokens parsed
from the body (`token_info.get` of each key) into the session and returns
pass-through: no redirect, no error, no logout. -/
theorem C5_success_stores_tokens (cfg : Config) (env : Env) (req : Request)
    (resp : HttpResponse)
    (h1 : is_refreshable_url cfg env req false = true)
    (h2 : is_expired req.session env.now = true)
    (h3 : RefreshOIDCToken.is_refresh_token_expired cfg req.session env.now = false)
    (h4 : req.session.oidc_refresh_token.getD "" ≠ "")
    (h5 : env.httpPost cfg.OIDC_OP_TOKEN_ENDPOINT
        (token_payload cfg (req.session.oidc_refresh_token.getD "")) = .ok resp)
    (h6 : resp.status_code = 200) :
    RefreshOIDCToken.process_request cfg env req =
      ⟨.passthrough,
       store_tokens (store_expiration_times req.session cfg env.now)
         resp.access_token resp.id_token resp.refresh_token,
       false, true⟩ := by
  simp [RefreshOIDCToken.process_request, h1, h2, h3, h4, h5, h6]

/-- witness for C5 at a concrete 200 response carrying rotated tokens. -/
theorem C5_success_stores_tokens_witness :
    RefreshOIDCToken.process_request sampleCfg
        (sampleEnv (.ok ⟨200, some "new-id", some "new-at", some "new-rt"⟩))
        (sampleReq "POST" false sampleSession) =
      ⟨.passthrough,
       store_tokens
         (store_expiration_times
           (sampleReq "POST" false sampleSession).session sampleCfg
           (sampleEnv (.ok ⟨200, some "new-id", some "new-at", some "new-rt"⟩)).now)
         (some "new-at") (some "new-id") (some "new-rt"),
       false, true⟩ :=
  C5_success_stores_tokens sampleCfg
    (sampleEnv (.ok ⟨200, some "new-id", some "new-at", some "new-rt"⟩))
    (sampleReq "POST" false sampleSession)
    ⟨200, some "new-id", some "new-at", some "new-rt"⟩
    (by decide) (by decide) (by decide) (by decide) rfl rfl

/-- C6: when the exchange is reached with the refresh token not considered
independently expired but no refresh token stored (absent or Python-falsy),
the exchanger raises ImproperlyConfigured, leaves the session as it was and
never contacts the token endpoint. -/
theorem C6_missing_refresh_token_misconfigured (cfg : Config) (env : Env)
    (req : Request)
    (h1 : is_refreshable_url cfg env req false = true)
    (h2 : is_expired req.session env.now = true)
    (h3 : RefreshOIDCToken.is_refresh_token_expired cfg req.session env.now = false)
    (h4 : req.session.oidc_refresh_token.getD "" = "") :
    RefreshOIDCToken.process_request cfg env req =
      ⟨.improperlyConfigured "Refresh token missing.", req.session,
        false, false⟩ := by
  simp [RefreshOIDCToken.process_request, h1, h2, h3, h4]

/-- sample session with no refresh token stored. -/
def noRefreshSession : Session :=
  { sampleSession with oidc_refresh_token := none }

/-- witness for C6 at a concrete session lacking a refresh token. -/
theorem C6_missing_refresh_token_misconfigured_witness :
    RefreshOIDCToken.process_request sampleCfg (sampleEnv .exn)
        (sampleReq "POST" false noRefreshSession) =
      ⟨.improperlyConfigured "Refresh token missing.",
        (sampleReq "POST" false noRefreshSession).session, false, false⟩ :=
  C6_missing_refresh_token_misconfigured sampleCfg (sampleEnv .exn)
    (sampleReq "POST" false noRefreshSession)
    (by decide) (by decide) (by decide) (by decide)

/-- C9: a 200 response whose JSON body omits `id_token`, `access_token` and
`refresh_token` is still treated as a success: the exchanger overwrites the
session's token fields with the absent (`none`) values through
`store_tokens` and returns pass-through, raising nothing and validating
nothing. -/
theorem C9_success_without_body_validation (cfg : Config) (env : Env)
    (req : Request)
    (h1 : is_refreshable_url cfg env req false = true)
    (h2 : is_expired req.session env.now = true)
    (h3 : RefreshOIDCToken.is_refresh_token_expired cfg req.session env.now = false)
    (h4 : req.session.oidc_refresh_token.getD "" ≠ "")
    (h5 : env.httpPost cfg.OIDC_OP_TOKEN_ENDPOINT
        (token_payload cfg (req.session.oidc_refresh_token.getD "")) =
      .ok ⟨200, none, none, none⟩) :
    RefreshOIDCToken.process_request cfg env req =
      ⟨.passthrough,
       store_tokens (store_expiration_times req.session cfg env.now)
         none none none,
       false, true⟩ ∧
    (RefreshOIDCToken.process_request cfg env req).session.oidc_access_token
        = none ∧
    (RefreshOIDCToken.process_request cfg env req).session.oidc_id_token
        = none ∧
    (RefreshOIDCToken.process_request cfg env req).session.oidc_refresh_token
        = none := by
  have h : RefreshOIDCToken.process_request cfg env req =
      ⟨.passthrough,
        store_tokens (store_expiration_times req.session cfg env.now)
          none none none,
        false, true⟩ := by
    simp [RefreshOIDCToken.process_request, h1, h2, h3, h4, h5]
  refine ⟨h, ?_, ?_, ?_⟩ <;> rw [h] <;> rfl

/-- witness for C9 at a concrete empty-body 200 response. -/
theorem C9_success_without_body_validation_witness :
    RefreshOIDCToken.process_request sampleCfg
        (sampleEnv (.ok ⟨200, none, none, none⟩))
        (sampleReq "POST" false sampleSession) =
      ⟨.passthrough,
       store_tokens
         (store_expiration_times
           (sampleReq "POST" false sampleSession).session sampleCfg
           (sampleEnv (.ok ⟨200, none, none, none⟩)).now)
         none none none,
       false, true⟩ ∧
    (RefreshOIDCToken.process_request sampleCfg
        (sampleEnv (.ok ⟨200, none, none, none⟩))
        (sampleReq "POST" false sampleSession)).session.oidc_access_token
        = none ∧
    (RefreshOIDCToken.process_request sampleCfg
        (sampleEnv (.ok ⟨200, none, none, none⟩))
        (sampleReq "POST" false sampleSession)).session.oidc_id_token
        = none ∧
    (RefreshOIDCToken.process_request sampleCfg
        (sampleEnv (.ok ⟨200, none, none, none⟩))
        (sampleReq "POST" false sampleSession)).session.oidc_refresh_token
        = none :=
  C9_success_without_body_validation sampleCfg
    (sampleEnv (.ok ⟨200, none, none, none⟩))
    (sampleReq "POST" false sampleSession)
    (by decide) (by decide) (by decide) (by decide) rfl

/-- counterexample to C4 as stated: at the same request and session, a
transport-level failure of the token-endpoint call makes the exception
escape the exchanger (`transportExn`), while a non-success status is folded
into the expiry/rejection handling (here: logout plus PermissionDenied);
the two outcomes differ, so a transport failure is not treated like a
non-success status and an exception does escape. -/
theorem C4_counterexample :
    (RefreshOIDCToken.process_request sampleCfg (sampleEnv .exn)
        (sampleReq "POST" false sampleSession)).outcome = .transportExn ∧
    (RefreshOIDCToken.process_request sampleCfg
        (sampleEnv (.ok ⟨500, none, none, none⟩))
        (sampleReq "POST" false sampleSession)).outcome =
      .permissionDenied "Refresh token expired on POST." ∧
    Outcome.transportExn ≠
      Outcome.permissionDenied "Refresh token expired on POST." := by
  refine ⟨by decide, by decide, by decide⟩

/-- C4 (amended): the exchanger does not catch transport-level failures:
whenever the token-endpoint call is reached and the HTTP client raises, the
exception escapes the exchanger with the session untouched; only a
non-success HTTP status (no exception) is folded into the expiry/rejection
handling branch. -/
theorem C4_transport_exn_escapes (cfg : Config) (env : Env) (req : Request)
    (h1 : is_refreshable_url cfg env req false = true)
    (h2 : is_expired req.session env.now = true)
    (h3 : RefreshOIDCToken.is_refresh_token_expired cfg req.session env.now = false)
    (h4 : req.session.oidc_refresh_token.getD "" ≠ "") :
    (env.httpPost cfg.OIDC_OP_TOKEN_ENDPOINT
        (token_payload cfg (req.session.oidc_refresh_token.getD "")) = .exn →
      RefreshOIDCToken.process_request cfg env req =
        ⟨.transportExn, req.session, false, true⟩) ∧
    (∀ resp, env.httpPost cfg.OIDC_OP_TOKEN_ENDPOINT
        (token_payload cfg (req.session.oidc_refresh_token.getD "")) = .ok resp →
      resp.status_code ≠ 200 →
      RefreshOIDCToken.process_request cfg env req =
        { RefreshOIDCToken.handle_refresh_token_expire cfg env req with
            contactedTokenEndpoint := true }) := by
  constructor
  · intro h5
    simp [RefreshOIDCToken.process_request, h1, h2, h3, h4, h5]
  · intro resp h5 h6
    simp [RefreshOIDCToken.process_request, h1, h2, h3, h4, h5, h6]

/-- witness for C4's amended statement at a concrete failing transport. -/
theorem C4_transport_exn_escapes_witness :
    RefreshOIDCToken.process_request sampleCfg (sampleEnv .exn)
        (sampleReq "POST" false sampleSession) =
      ⟨.transportExn, (sampleReq "POST" false sampleSession).session,
        false, true⟩ :=
  (C4_transport_exn_escapes sampleCfg (sampleEnv .exn)
    (sampleReq "POST" false sampleSession)
    (by decide) (by decide) (by decide) (by decide)).1 rfl

end OIDC
